import Mathlib

/-!
Verification of the knowledge-acquisition and caching layer of the DNA
annotation backend: the ClinVar clinical-dump ingester, the SNPedia
knowledge expander, the 1000 Genomes population-frequency indexer and the
atomic persistence primitive.  Python sources are embedded shallowly:
strings are Lean strings over their character lists, Python dicts are
insertion-ordered association lists, Python floats are modelled as exact
rationals, and stateful operations pass their state explicitly.
-/

set_option maxRecDepth 4096

/-! ## Python string primitives (ASCII fragment used by the sources) -/

/-- Python str.upper for the ASCII letters (the identifiers handled by the
sources are ASCII). -/
def upChar (c : Char) : Char :=
  if 'a' ≤ c ∧ c ≤ 'z' then Char.ofNat (c.toNat - 32) else c

/-- Python str.lower for the ASCII letters. -/
def lowChar (c : Char) : Char :=
  if 'A' ≤ c ∧ c ≤ 'Z' then Char.ofNat (c.toNat + 32) else c

def pyUpper (s : String) : String := String.mk (s.data.map upChar)

def pyLower (s : String) : String := String.mk (s.data.map lowChar)

/-- The whitespace characters stripped by Python str.strip. -/
def isPySpace (c : Char) : Bool :=
  c == ' ' || c == '\t' || c == '\n' || c == '\r' || c == '\x0b' || c == '\x0c'

def pyStrip (s : String) : String :=
  String.mk (((s.data.dropWhile isPySpace).reverse.dropWhile isPySpace).reverse)

/-- Python str.split with a single-character separator, on character
lists: splitting the empty string gives one empty group, and every
separator occurrence starts a new group. -/
def splitOnChar (sep : Char) : List Char → List (List Char)
  | [] => [[]]
  | c :: rest =>
      if c == sep then [] :: splitOnChar sep rest
      else
        match splitOnChar sep rest with
        | [] => [[c]]
        | g :: gs => (c :: g) :: gs

/-- Python str.split(sep) for a one-character separator. -/
def pySplit (s : String) (sep : Char) : List String :=
  (splitOnChar sep s.data).map String.mk

/-- Does the first list start with the second (Python str.startswith)? -/
def startsWithL : List Char → List Char → Bool
  | _, [] => true
  | [], _ :: _ => false
  | a :: as, b :: bs => a == b && startsWithL as bs

/-- Python substring containment: needle occurs contiguously in hay. -/
def containsSub (hay needle : List Char) : Bool :=
  if startsWithL hay needle then true
  else
    match hay with
    | [] => false
    | _ :: t => containsSub t needle

/-! ## Association lists with Python dict semantics -/

/-- Lookup in an insertion-ordered association list (Python dict access). -/
def dlookup (k : String) : List (String × α) → Option α
  | [] => none
  | (k₂, v) :: rest => if k₂ = k then some v else dlookup k rest

/-- Python dict assignment `d[k] = v`: replace the value in place when the
key is present (keys are unique in a dict), otherwise append the binding at
the end, preserving insertion order. -/
def dictInsert (k : String) (v : α) : List (String × α) → List (String × α)
  | [] => [(k, v)]
  | (k₂, v₂) :: rest =>
      if k₂ = k then (k, v) :: rest else (k₂, v₂) :: dictInsert k v rest

theorem dlookup_dictInsert_self (l : List (String × α)) (k : String) (v : α) :
    dlookup k (dictInsert k v l) = some v := by
  induction l with
  | nil => simp [dictInsert, dlookup]
  | cons hd tl ih =>
      obtain ⟨k₂, v₂⟩ := hd
      by_cases hk : k₂ = k <;> simp [dictInsert, dlookup, hk, ih]

theorem dlookup_dictInsert_ne (l : List (String × α)) (k k₂ : String) (v : α)
    (h : k₂ ≠ k) : dlookup k₂ (dictInsert k v l) = dlookup k₂ l := by
  have hne : ¬ k = k₂ := fun he => h he.symm
  induction l with
  | nil => simp [dictInsert, dlookup, hne]
  | cons hd tl ih =>
      obtain ⟨k₃, v₃⟩ := hd
      by_cases hk : k₃ = k
      · subst hk
        simp [dictInsert, dlookup, hne]
      · by_cases hk₂ : k₃ = k₂ <;> simp [dictInsert, dlookup, hk, hk₂, ih, h]

theorem dlookup_isSome_dictInsert (l : List (String × α)) (k k₂ : String) (v : α)
    (h : (dlookup k₂ l).isSome) : (dlookup k₂ (dictInsert k v l)).isSome := by
  by_cases he : k₂ = k
  · subst he; simp [dlookup_dictInsert_self]
  · rwa [dlookup_dictInsert_ne l k k₂ v he]

/-! ## Frequency extraction from a VCF INFO field
(layer4_population/frequency_db.py) -/

/-- First match of the regex pattern `key([chars]+)` in a character list:
scan left to right, and at the first position where the literal key is
followed by a nonempty maximal run of accepted characters, return that
run (re.search semantics with a greedy character class). -/
def searchKeyRun (key : List Char) (p : Char → Bool) : List Char → Option (List Char)
  | [] => none
  | c :: rest =>
    if startsWithL (c :: rest) key then
      match (List.drop key.length (c :: rest)).takeWhile p with
      | [] => searchKeyRun key p rest
      | r :: run => some (r :: run)
    else searchKeyRun key p rest

/-- Value of a digit run (Python int on a digit string). -/
def natOfDigits (l : List Char) : Nat :=
  l.foldl (fun n c => n * 10 + (c.toNat - 48)) 0

/-- Python float() applied to a string drawn from [0-9.]+ : it succeeds
exactly when there is at most one dot and at least one digit, giving the
exact decimal value (floats are modelled as rationals). -/
def pyFloatOfRun (l : List Char) : Option ℚ :=
  if (l.filter (· == '.')).length ≤ 1 ∧ l.any Char.isDigit = true then
    some ((natOfDigits (l.takeWhile (· != '.')) : ℚ) +
      (natOfDigits ((l.dropWhile (· != '.')).drop 1) : ℚ) /
        ((10 : ℚ) ^ ((l.dropWhile (· != '.')).drop 1).length))
  else none

/-- PopulationFrequencyDB._extract_af_from_info: first regex match of
AF=([0-9.]+) anywhere in the INFO string, parsed as a float; None when
there is no match or the matched run fails float parsing. -/
def extract_af_from_info (info : String) : Option ℚ :=
  match searchKeyRun "AF=".data (fun c => c.isDigit || c == '.') info.data with
  | some run => pyFloatOfRun run
  | none => none

/-- PopulationFrequencyDB._derive_af_from_info: first matches of
AC=([0-9]+) and AN=([0-9]+); when both are present and AN > 0 the
frequency is AC / AN, otherwise None. -/
def derive_af_from_info (info : String) : Option ℚ :=
  match searchKeyRun "AC=".data Char.isDigit info.data,
        searchKeyRun "AN=".data Char.isDigit info.data with
  | some ac, some an =>
      if natOfDigits an > 0 then some ((natOfDigits ac : ℚ) / (natOfDigits an : ℚ))
      else none
  | _, _ => none

/-- The frequency a VCF data line contributes, per _parse_vcf_streaming:
the direct AF extraction, falling back to AC/AN derivation. -/
def vcf_line_af (info : String) : Option ℚ :=
  match extract_af_from_info info with
  | some af => some af
  | none => derive_af_from_info info

/-! Evaluation helpers: the string-scanning parts are settled by kernel
evaluation, the rational arithmetic by norm_num (Rat operations do not
reduce definitionally). -/

theorem extract_af_eval (info : String) (run : List Char)
    (h : searchKeyRun "AF=".data (fun c => c.isDigit || c == '.') info.data = some run) :
    extract_af_from_info info = pyFloatOfRun run := by
  unfold extract_af_from_info
  rw [h]

theorem extract_af_none (info : String)
    (h : searchKeyRun "AF=".data (fun c => c.isDigit || c == '.') info.data = none) :
    extract_af_from_info info = none := by
  unfold extract_af_from_info
  rw [h]

theorem derive_af_eval (info : String) (ac an : List Char)
    (h₁ : searchKeyRun "AC=".data Char.isDigit info.data = some ac)
    (h₂ : searchKeyRun "AN=".data Char.isDigit info.data = some an) :
    derive_af_from_info info =
      if natOfDigits an > 0 then some ((natOfDigits ac : ℚ) / (natOfDigits an : ℚ))
      else none := by
  unfold derive_af_from_info
  rw [h₁, h₂]

theorem vcf_line_af_of_extract_none (info : String)
    (h : extract_af_from_info info = none) :
    vcf_line_af info = derive_af_from_info info := by
  unfold vcf_line_af
  rw [h]

theorem vcf_line_af_of_extract_some (info : String) (q : ℚ)
    (h : extract_af_from_info info = some q) : vcf_line_af info = some q := by
  unfold vcf_line_af
  rw [h]

theorem pyFloatOfRun_005 : pyFloatOfRun ['0', '.', '0', '5'] = some (1 / 20) := by
  unfold pyFloatOfRun
  rw [if_pos (by decide)]
  rw [show List.takeWhile (· != '.') ['0', '.', '0', '5'] = ['0'] from by decide]
  rw [show (List.dropWhile (· != '.') ['0', '.', '0', '5']).drop 1 = ['0', '5'] from by decide]
  rw [show natOfDigits ['0'] = 0 from by decide, show natOfDigits ['0', '5'] = 5 from by decide]
  rw [show (['0', '5'] : List Char).length = 2 from rfl]
  norm_num

theorem extract_af_005 : extract_af_from_info "AF=0.05" = some (1 / 20) :=
  (extract_af_eval "AF=0.05" ['0', '.', '0', '5'] (by decide)).trans pyFloatOfRun_005

theorem derive_af_3_10 : derive_af_from_info "AC=3;AN=10" = some (3 / 10) := by
  rw [derive_af_eval "AC=3;AN=10" ['3'] ['1', '0'] (by decide) (by decide)]
  rw [show natOfDigits ['3'] = 3 from by decide, show natOfDigits ['1', '0'] = 10 from by decide]
  norm_num

/-- Claim C6: with no explicit frequency key the frequency is derived as
allele-count / allele-number ("AC=3;AN=10" gives 0.3; nothing is derived
when AN is zero or either field is missing); an explicit "AF=0.05" gives
0.05 directly, and the direct value takes precedence over the derived one
when both are present. -/
theorem c6_frequency_derivation :
    vcf_line_af "AC=3;AN=10" = some (3 / 10) ∧
    vcf_line_af "AF=0.05" = some (1 / 20) ∧
    vcf_line_af "AC=3;AN=10;AF=0.05" = some (1 / 20) ∧
    derive_af_from_info "AC=3;AN=10;AF=0.05" = some (3 / 10) ∧
    vcf_line_af "AC=3;AN=0" = none ∧
    vcf_line_af "AN=10" = none ∧
    vcf_line_af "AC=3" = none ∧
    (∀ info q, extract_af_from_info info = some q → vcf_line_af info = some q) ∧
    (∀ info, extract_af_from_info info = none →
      vcf_line_af info = derive_af_from_info info) := by
  have e₁ : extract_af_from_info "AC=3;AN=10" = none := extract_af_none _ (by decide)
  have e₃ : extract_af_from_info "AC=3;AN=10;AF=0.05" = some (1 / 20) :=
    (extract_af_eval "AC=3;AN=10;AF=0.05" ['0', '.', '0', '5'] (by decide)).trans
      pyFloatOfRun_005
  have d₃ : derive_af_from_info "AC=3;AN=10;AF=0.05" = some (3 / 10) := by
    rw [derive_af_eval "AC=3;AN=10;AF=0.05" ['3'] ['1', '0'] (by decide) (by decide)]
    rw [show natOfDigits ['3'] = 3 from by decide,
      show natOfDigits ['1', '0'] = 10 from by decide]
    norm_num
  have d₅ : derive_af_from_info "AC=3;AN=0" = none := by
    rw [derive_af_eval "AC=3;AN=0" ['3'] ['0'] (by decide) (by decide)]
    rw [show natOfDigits ['0'] = 0 from by decide]
    norm_num
  have d₆ : derive_af_from_info "AN=10" = none := by
    unfold derive_af_from_info
    rw [show searchKeyRun "AC=".data Char.isDigit "AN=10".data = none from by decide]
  have d₇ : derive_af_from_info "AC=3" = none := by
    unfold derive_af_from_info
    rw [show searchKeyRun "AC=".data Char.isDigit "AC=3".data = some ['3'] from by decide,
      show searchKeyRun "AN=".data Char.isDigit "AC=3".data = none from by decide]
  refine ⟨(vcf_line_af_of_extract_none _ e₁).trans derive_af_3_10,
    vcf_line_af_of_extract_some _ _ extract_af_005,
    vcf_line_af_of_extract_some _ _ e₃, d₃,
    (vcf_line_af_of_extract_none _ (extract_af_none _ (by decide))).trans d₅,
    (vcf_line_af_of_extract_none _ (extract_af_none _ (by decide))).trans d₆,
    (vcf_line_af_of_extract_none _ (extract_af_none _ (by decide))).trans d₇,
    vcf_line_af_of_extract_some, vcf_line_af_of_extract_none⟩

theorem c6_frequency_derivation_witness :
    vcf_line_af "AF=0.05" = some (1 / 20) :=
  c6_frequency_derivation.2.2.2.2.2.2.2.1 "AF=0.05" (1 / 20) extract_af_005

/-- Claim C10: the direct extractor matches the substring AF= anywhere,
so a sub-population key like AFR_AF=0.1 with no standalone AF key yields
0.1 as the direct frequency, taking precedence over AC/AN derivation. -/
theorem c10_substring_af_match :
    extract_af_from_info "AFR_AF=0.1" = some (1 / 10) ∧
    derive_af_from_info "AFR_AF=0.1;AC=3;AN=10" = some (3 / 10) ∧
    vcf_line_af "AFR_AF=0.1;AC=3;AN=10" = some (1 / 10) := by
  have hrun : pyFloatOfRun ['0', '.', '1'] = some (1 / 10) := by
    unfold pyFloatOfRun
    rw [if_pos (by decide)]
    rw [show List.takeWhile (· != '.') ['0', '.', '1'] = ['0'] from by decide]
    rw [show (List.dropWhile (· != '.') ['0', '.', '1']).drop 1 = ['1'] from by decide]
    rw [show natOfDigits ['0'] = 0 from by decide, show natOfDigits ['1'] = 1 from by decide]
    rw [show (['1'] : List Char).length = 1 from rfl]
    norm_num
  have e : extract_af_from_info "AFR_AF=0.1" = some (1 / 10) :=
    (extract_af_eval "AFR_AF=0.1" ['0', '.', '1'] (by decide)).trans hrun
  have e₂ : extract_af_from_info "AFR_AF=0.1;AC=3;AN=10" = some (1 / 10) :=
    (extract_af_eval "AFR_AF=0.1;AC=3;AN=10" ['0', '.', '1'] (by decide)).trans hrun
  have d : derive_af_from_info "AFR_AF=0.1;AC=3;AN=10" = some (3 / 10) := by
    rw [derive_af_eval "AFR_AF=0.1;AC=3;AN=10" ['3'] ['1', '0'] (by decide) (by decide)]
    rw [show natOfDigits ['3'] = 3 from by decide,
      show natOfDigits ['1', '0'] = 10 from by decide]
    norm_num
  exact ⟨e, d, vcf_line_af_of_extract_some _ _ e₂⟩

/-! ## PopulationFrequencyDB: indexing and lookup
(layer4_population/frequency_db.py) -/

/-- A row of the allele_freqs table (rsid TEXT PRIMARY KEY, ref, alt,
global_af REAL); REAL values are modelled as rationals. -/
structure FreqRecord where
  rsid : String
  ref : String
  alt : String
  global_af : ℚ
deriving DecidableEq, Repr

/-- INSERT OR REPLACE keyed by the rsid primary key. -/
def db_upsert (db : List FreqRecord) (r : FreqRecord) : List FreqRecord :=
  (db.filter (fun x => x.rsid != r.rsid)) ++ [r]

/-- One data line of _parse_vcf_streaming: strip, split on tabs, require at
least 8 fields, take the first semicolon-separated ID token when it starts
with rs, extract or derive the frequency from INFO, and upsert.  The
1000-row write batching of the source only groups inserts and does not
change the resulting table. -/
def parse_vcf_line (db : List FreqRecord) (line : String) : List FreqRecord :=
  if pyStrip line = "" then db
  else
    let fields := pySplit (pyStrip line) '\t'
    if fields.length < 8 then db
    else
      if startsWithL (fields.getD 2 "").data "rs".data then
        let rsid := pyStrip ((pySplit (fields.getD 2 "") ';').getD 0 "")
        if rsid = "" then db
        else if startsWithL rsid.data "rs".data then
          match vcf_line_af (fields.getD 7 "") with
          | some af =>
              db_upsert db ⟨rsid, fields.getD 3 "", (pySplit (fields.getD 4 "") ',').getD 0 "", af⟩
          | none => db
        else db
      else db

/-- Skip lines until the #CHROM data header, as the first loop of
_parse_vcf_streaming does; without a header no data line is read. -/
def dropVcfHeader : List String → List String
  | [] => []
  | l :: rest => if startsWithL l.data "#CHROM".data then rest else dropVcfHeader rest

/-- PopulationFrequencyDB._parse_vcf_streaming over the decompressed lines,
starting from the current table contents. -/
def parse_vcf_streaming (lines : List String) (db : List FreqRecord) : List FreqRecord :=
  (dropVcfHeader lines).foldl parse_vcf_line db

/-- PopulationFrequencyDB.get_frequency: point query comparing the stored
rsid (BINARY collation, exact string equality) against the upper-cased
argument. -/
def get_frequency (db : List FreqRecord) (rsid : String) : Option ℚ :=
  match db.find? (fun r => r.rsid == pyUpper rsid) with
  | some r => some r.global_af
  | none => none

/-- Evaluation helper: a well-formed VCF data line reduces to an upsert
guarded by the extracted frequency. -/
theorem parse_vcf_line_match (db : List FreqRecord) (line rsid refA alt info : String)
    (h₀ : ¬ pyStrip line = "")
    (h₁ : ¬ (pySplit (pyStrip line) '\t').length < 8)
    (h₂ : startsWithL ((pySplit (pyStrip line) '\t').getD 2 "").data "rs".data = true)
    (h₃ : pyStrip ((pySplit ((pySplit (pyStrip line) '\t').getD 2 "") ';').getD 0 "") = rsid)
    (h₄ : ¬ rsid = "")
    (h₅ : startsWithL rsid.data "rs".data = true)
    (h₆ : (pySplit (pyStrip line) '\t').getD 3 "" = refA)
    (h₇ : (pySplit ((pySplit (pyStrip line) '\t').getD 4 "") ',').getD 0 "" = alt)
    (h₈ : (pySplit (pyStrip line) '\t').getD 7 "" = info) :
    parse_vcf_line db line =
      match vcf_line_af info with
      | some af => db_upsert db ⟨rsid, refA, alt, af⟩
      | none => db := by
  simp only [parse_vcf_line]
  rw [if_neg h₀, if_neg h₁, if_pos h₂, h₃, if_neg h₄, if_pos h₅, h₆, h₇, h₈]

/-- The VCF input of the C3 scenario: one indexed variant rs123 with a
direct AF of 0.5. -/
def c3_vcf_lines : List String :=
  ["##fileformat=VCFv4.1",
   "#CHROM\tPOS\tID\tREF\tALT\tQUAL\tFILTER\tINFO",
   "1\t100\trs123\tA\tG\t.\t.\tAF=0.5"]

/-- Claim C3: the indexer stores the rsid exactly as spelled in the file
(here lower-case "rs123", the only spelling the parser accepts) while
get_frequency compares against the upper-cased argument, so the lookup of
an indexed identifier returns none for every case-variant spelling, 0.5
never being returned.  This evaluates the code at the failing input. -/
theorem c3_case_mismatch_loses_frequency :
    parse_vcf_streaming c3_vcf_lines [] = [⟨"rs123", "A", "G", 1 / 2⟩] ∧
    get_frequency (parse_vcf_streaming c3_vcf_lines []) "rs123" = none ∧
    get_frequency (parse_vcf_streaming c3_vcf_lines []) "RS123" = none ∧
    get_frequency (parse_vcf_streaming c3_vcf_lines []) "Rs123" = none := by
  have haf : vcf_line_af "AF=0.5" = some (1 / 2) := by
    have hrun : pyFloatOfRun ['0', '.', '5'] = some (1 / 2) := by
      unfold pyFloatOfRun
      rw [if_pos (by decide)]
      rw [show List.takeWhile (· != '.') ['0', '.', '5'] = ['0'] from by decide]
      rw [show (List.dropWhile (· != '.') ['0', '.', '5']).drop 1 = ['5'] from by decide]
      rw [show natOfDigits ['0'] = 0 from by decide, show natOfDigits ['5'] = 5 from by decide]
      rw [show (['5'] : List Char).length = 1 from rfl]
      norm_num
    exact vcf_line_af_of_extract_some _ _
      ((extract_af_eval "AF=0.5" ['0', '.', '5'] (by decide)).trans hrun)
  have hparse : parse_vcf_streaming c3_vcf_lines [] = [⟨"rs123", "A", "G", 1 / 2⟩] := by
    unfold parse_vcf_streaming
    rw [show dropVcfHeader c3_vcf_lines = ["1\t100\trs123\tA\tG\t.\t.\tAF=0.5"] from by decide]
    rw [List.foldl_cons, List.foldl_nil]
    rw [parse_vcf_line_match [] _ "rs123" "A" "G" "AF=0.5" (by decide) (by decide) (by decide)
      (by decide) (by decide) (by decide) (by decide) (by decide) (by decide)]
    rw [haf]
    rfl
  refine ⟨hparse, ?_, ?_, ?_⟩ <;> rw [hparse] <;> rfl

/-! ## PopulationFrequencyDB.get_frequencies_batch (chunked lookup) -/

/-- SQLITE_BATCH_CHUNK_SIZE from config/settings.py. -/
def SQLITE_BATCH_CHUNK_SIZE : Nat := 900

/-- The sub-lists produced by range(0, len, n) slicing, n positive in all
uses (the chunk size constant is 900). -/
def sqlChunks (n : Nat) (l : List α) : List (List α) :=
  match n, l with
  | _, [] => []
  | 0, _ => []
  | m + 1, c :: rest =>
      (c :: rest).take (m + 1) :: sqlChunks (m + 1) ((c :: rest).drop (m + 1))
termination_by l.length
decreasing_by
  simp [List.length_drop]
  omega

/-- One chunk's SELECT ... WHERE rsid IN (...) with upper-cased parameters,
each returned row written into the result dict keyed by the stored rsid. -/
def chunk_query (db : List FreqRecord) (res : List (String × Option ℚ))
    (chunk : List String) : List (String × Option ℚ) :=
  (db.filter (fun r => (chunk.map pyUpper).contains r.rsid)).foldl
    (fun res r => dictInsert r.rsid (some r.global_af) res) res

/-- The final fill-in loop of get_frequencies_batch: for each requested
rsid, when the upper-cased spelling is not among the result keys, a None
entry is written under the original spelling. -/
def fill_missing_step (res : List (String × Option ℚ)) (rsid : String) :
    List (String × Option ℚ) :=
  if (res.map Prod.fst).contains (pyUpper rsid) then res else dictInsert rsid none res

/-- PopulationFrequencyDB.get_frequencies_batch: empty request gives an
empty dict; otherwise the chunked queries are merged into one dict and the
fill-in loop runs once over all requested rsids. -/
def get_frequencies_batch (db : List FreqRecord) (rsids : List String) :
    List (String × Option ℚ) :=
  if rsids = [] then []
  else
    rsids.foldl fill_missing_step
      ((sqlChunks SQLITE_BATCH_CHUNK_SIZE rsids).foldl (chunk_query db) [])

theorem chunk_query_nil_db (cs : List (List String)) (res : List (String × Option ℚ)) :
    cs.foldl (chunk_query []) res = res := by
  induction cs generalizing res with
  | nil => rfl
  | cons c cs ih => simpa [chunk_query] using ih res

theorem foldl_replicate_fix (f : α → β → α) (a : α) (b : β) (h : f a b = a) :
    ∀ n, (List.replicate n b).foldl f a = a := by
  intro n
  induction n with
  | zero => rfl
  | succ n ih => simpa [List.replicate_succ, h] using ih

/-- The failing request of claim C1: 901 identifiers (above the 900 chunk
ceiling), "RS1" first and the case-variant "rs1" everywhere after it. -/
def c1_bad_rsids : List String := "RS1" :: List.replicate 900 "rs1"

/-- Claim C1: over an empty table, the 901-identifier request returns a
map with no entry at all for the requested identifier "rs1" — the fill-in
loop tests the upper-cased spelling against the keys but inserts under the
original spelling, so "rs1" is skipped once "RS1" is present.  This
contradicts the totality half of the claim (and the comment in the source
asserting that every requested rsid gets an entry); it evaluates the code
at the failing input. -/
theorem c1_missing_entry_for_requested_rsid :
    c1_bad_rsids.length = 901 ∧
    SQLITE_BATCH_CHUNK_SIZE < c1_bad_rsids.length ∧
    "rs1" ∈ c1_bad_rsids ∧
    get_frequencies_batch [] c1_bad_rsids = [("RS1", none)] ∧
    dlookup "rs1" (get_frequencies_batch [] c1_bad_rsids) = none := by
  have hlen : c1_bad_rsids.length = 901 := by
    show ("RS1" :: List.replicate 900 "rs1").length = 901
    rw [List.length_cons, List.length_replicate]
  have hmem : "rs1" ∈ c1_bad_rsids :=
    List.mem_cons_of_mem _ (List.mem_replicate.mpr ⟨by decide, rfl⟩)
  have hmain : get_frequencies_batch [] c1_bad_rsids = [("RS1", none)] := by
    unfold get_frequencies_batch
    rw [if_neg (show ¬ c1_bad_rsids = [] from fun h => List.cons_ne_nil "RS1" _ h)]
    rw [chunk_query_nil_db]
    show (("RS1" :: List.replicate 900 "rs1").foldl fill_missing_step []) = _
    rw [List.foldl_cons]
    rw [show fill_missing_step [] "RS1" = [("RS1", none)] from rfl]
    exact foldl_replicate_fix fill_missing_step [("RS1", none)] "rs1" rfl 900
  refine ⟨hlen, by rw [hlen]; decide, hmem, hmain, by rw [hmain]; rfl⟩

/-! ## ClinVarAnnotator (layer1_clinvar/annotator.py) -/

/-- A cached annotation entry: the JSON object stored per rsid (string
keys to string values). -/
abbrev ClinEntry := List (String × String)

/-- The annotation cache document: rsid to entry, insertion ordered. -/
abbrev ClinCache := List (String × ClinEntry)

/-- One attempt of the regex \s*\([^)]*\) at the current position:
greedily consume whitespace, require an opening parenthesis, consume up to
the next closing parenthesis, and return the remainder. -/
def tryMatchParen (l : List Char) : Option (List Char) :=
  match l.dropWhile isPySpace with
  | [] => none
  | c :: r =>
      if c == '(' then
        match r.dropWhile (· != ')') with
        | [] => none
        | c₂ :: r₂ => if c₂ == ')' then some r₂ else none
      else none

/-- re.sub of \s*\([^)]*\) with the empty string: scan left to right,
deleting every match.  Each step consumes at least one character, so the
initial length is sufficient fuel and the scan is total. -/
def subParensGo (fuel : Nat) (l : List Char) : List Char :=
  match fuel with
  | 0 => l
  | fuel + 1 =>
      match l with
      | [] => []
      | c :: t =>
          match tryMatchParen (c :: t) with
          | some rest => subParensGo fuel rest
          | none => c :: subParensGo fuel t

def subParens (l : List Char) : List Char := subParensGo l.length l

/-- First match of re.search(r'\d+'): the maximal digit run at the first
digit position. -/
def firstDigitRun : List Char → Option (List Char)
  | [] => none
  | c :: rest =>
      if c.isDigit then some ((c :: rest).takeWhile Char.isDigit)
      else firstDigitRun rest

/-- Per-row rsid normalization of _parse_and_cache: strip, drop
parenthetical annotations, coerce bare digits or any extractable digit run
into rs-prefixed form, then upper-case; None when the row is dropped. -/
def normalize_rsid (raw : String) : Option String :=
  let rsid₀ := pyStrip raw
  if rsid₀ = "" then none
  else
    let rsid₁ := pyStrip (String.mk (subParens rsid₀.data))
    if startsWithL rsid₁.data "rs".data then some (pyUpper rsid₁)
    else if rsid₁ ≠ "" ∧ rsid₁.data.all Char.isDigit = true then
      some (pyUpper ("rs" ++ rsid₁))
    else
      match firstDigitRun rsid₁.data with
      | some run => some (pyUpper ("rs" ++ String.mk run))
      | none => none

/-- The column-name candidate lists of _parse_and_cache. -/
def rsid_patterns : List String :=
  ["rs# (dbsnp)", "rs#", "rs_id", "rsid", "snp", "rs (dbsnp)",
   "rs(dbsnp)", "reference snp", "refsnp_id", "dbsnp rs", "rs number"]

def significance_patterns : List String :=
  ["clinicalsignificance", "clinical significance", "clinical_significance",
   "significance", "clinical significance (last reviewed)", "review status"]

def phenotype_patterns : List String :=
  ["phenotypelist", "phenotype list", "phenotype_list", "phenotypes",
   "condition", "disease name", "condition/disease", "disease/phenotype"]

def rcv_patterns : List String :=
  ["rcvaccession", "rcv accession", "rcv_accession", "accession",
   "rcv", "review accession", "variant accession"]

/-- ClinVarAnnotator._find_column_index: lower-case and strip every header
cell, try the candidates as exact names first (list.index of the first
occurrence), then fall back to substring containment in either direction
against every cell, first candidate and first cell winning. -/
def find_column_index (columns : List String) (names : List String) : Option Nat :=
  let columnsLower := columns.map (fun c => pyStrip (pyLower c))
  match names.findSome? (fun nm => columnsLower.findIdx? (· == pyStrip (pyLower nm))) with
  | some i => some i
  | none =>
      names.findSome? (fun nm =>
        columnsLower.findIdx? (fun col =>
          containsSub col.data (pyStrip (pyLower nm)).data ||
          containsSub (pyStrip (pyLower nm)).data col.data))

/-- The guarded cell access of _parse_and_cache, for example
fields[significance_idx].strip() if significance_idx and
significance_idx < len(fields) else "".  Python treats both None and the
integer 0 as falsy, so a column discovered at index 0 takes the
empty-string branch. -/
def field_at_truthy (idx : Option Nat) (fields : List String) : String :=
  match idx with
  | none => ""
  | some 0 => ""
  | some i => if i < fields.length then pyStrip (fields.getD i "") else ""

/-- One data row of _parse_and_cache: split, bounds-check the rsid column,
normalize the rsid, read the three metadata cells through the truthiness
guard, and store first-write-wins (a later row only overwrites an entry
whose significance is empty — dict.get of a missing key yields falsy None,
the stored entries always carry the key, so the guard reads as shown). -/
def parse_row (rsidIdx : Nat) (sigIdx phenIdx rcvIdx : Option Nat)
    (cache : ClinCache) (line : String) : ClinCache :=
  let fields := pySplit (pyStrip line) '\t'
  if fields.length ≤ rsidIdx then cache
  else
    match normalize_rsid (fields.getD rsidIdx "") with
    | none => cache
    | some rsid =>
        if (match dlookup rsid cache with
            | none => true
            | some entry => (dlookup "clinical_significance" entry).getD "" == "") then
          dictInsert rsid
            [("clinical_significance", field_at_truthy sigIdx fields),
             ("phenotype_list", field_at_truthy phenIdx fields),
             ("rcv_accession", field_at_truthy rcvIdx fields)] cache
        else cache

/-- ClinVarAnnotator._parse_and_cache: discover the four columns from the
stripped header, fail with ValueError when the rsid column is absent,
otherwise fold the data rows into the cache document. -/
def parse_and_cache (headerLine : String) (rows : List String) :
    Except String ClinCache :=
  let columns := pySplit (pyStrip headerLine) '\t'
  match find_column_index columns rsid_patterns with
  | none => .error "Could not find RSID column in ClinVar file. Please check column names."
  | some rsidIdx =>
      .ok (rows.foldl
        (parse_row rsidIdx (find_column_index columns significance_patterns)
          (find_column_index columns phenotype_patterns)
          (find_column_index columns rcv_patterns)) [])

/-- The ingestion step at the level of the durable cache document: the
ValueError raised on failed rsid-column discovery propagates out of
_parse_and_cache before the document is assembled and atomically written,
so the previous document survives and ensure_data_downloaded returns
False; on success the freshly parsed document replaces it. -/
def run_ingestion (prevCache : Option ClinCache) (headerLine : String)
    (rows : List String) : Option ClinCache × Bool :=
  match parse_and_cache headerLine rows with
  | .error _ => (prevCache, false)
  | .ok c => (some c, true)

/-- ClinVarAnnotator.annotate: upper-case and strip the argument, look it
up, and build the three-field answer with empty-string defaults. -/
def annotate (cache : ClinCache) (rsid : String) : List (String × String) :=
  let result := (dlookup (pyStrip (pyUpper rsid)) cache).getD []
  [("clinical_significance", (dlookup "clinical_significance" result).getD ""),
   ("phenotype_list", (dlookup "phenotype_list" result).getD ""),
   ("rcv_accession", (dlookup "rcv_accession" result).getD "")]

/-- Claim C5: for every identifier, ingested or not, annotate returns a
dictionary with exactly the keys clinical_significance, phenotype_list and
rcv_accession, each a string, and every field is the empty string when the
identifier was never ingested. -/
theorem c5_annotate_total_three_fields (cache : ClinCache) (rsid : String) :
    (annotate cache rsid).map Prod.fst =
      ["clinical_significance", "phenotype_list", "rcv_accession"] ∧
    (dlookup (pyStrip (pyUpper rsid)) cache = none →
      annotate cache rsid =
        [("clinical_significance", ""), ("phenotype_list", ""), ("rcv_accession", "")]) := by
  constructor
  · rfl
  · intro h
    simp only [annotate]
    rw [h]
    rfl

theorem c5_annotate_total_three_fields_witness :
    annotate [] "rs1" =
      [("clinical_significance", ""), ("phenotype_list", ""), ("rcv_accession", "")] :=
  (c5_annotate_total_three_fields [] "rs1").2 rfl

/-- Claim C7: when rsid-column discovery fails on the header, ingestion
aborts as a fatal error and the previously cached document, if any, is
returned unchanged — no partial document is written. -/
theorem c7_missing_rsid_column_aborts (prev : Option ClinCache) (hdr : String)
    (rows : List String)
    (h : find_column_index (pySplit (pyStrip hdr) '\t') rsid_patterns = none) :
    run_ingestion prev hdr rows = (prev, false) := by
  simp only [run_ingestion, parse_and_cache]
  rw [h]

theorem c7_missing_rsid_column_aborts_witness :
    run_ingestion (some [("RS7", [("clinical_significance", "Benign")])])
        "GeneSymbol\tChromosome" ["BRCA1\t17"] =
      (some [("RS7", [("clinical_significance", "Benign")])], false) :=
  c7_missing_rsid_column_aborts _ _ _ (by decide)

/-- The clinical-dump header and row of claim C8: the significance column
is discovered at index 0, the rsid column at index 1. -/
def c8_header : String := "ClinicalSignificance\tRS# (dbSNP)"

def c8_row : String := "Pathogenic\trs123"

/-- Claim C8: the significance column is discovered at index 0 and the
data row has a cell there ("Pathogenic"), yet the cached entry carries the
empty string for clinical_significance, because the guard
`significance_idx and significance_idx < len(fields)` treats the integer
index 0 as falsy.  This evaluates the code at the failing input. -/
theorem c8_column_at_index_zero_yields_empty :
    find_column_index (pySplit (pyStrip c8_header) '\t') significance_patterns = some 0 ∧
    find_column_index (pySplit (pyStrip c8_header) '\t') rsid_patterns = some 1 ∧
    (pySplit (pyStrip c8_row) '\t').getD 0 "" = "Pathogenic" ∧
    parse_and_cache c8_header [c8_row] =
      .ok [("RS123",
        [("clinical_significance", ""), ("phenotype_list", ""), ("rcv_accession", "")])] := by
  exact ⟨by decide, by decide, by decide, by rfl⟩

/-! ## SNPediaExpander (layer3_snpedia/expander.py)

HTML parsing (BeautifulSoup) is abstracted as a parameter producing the
record for a 200 response; the claims below never reach it.  The network
is an oracle mapping (rsid, attempt index) to an HTTP outcome.  The
semaphore, inter-request sleeps and per-100 checkpoint flushes only
schedule work: the returned identifier-keyed map is modelled by the
sequential fold over the work list. -/

def SNPEDIA_BASE_URL : String := "https://www.snpedia.com/index.php/"

/-- SNPEDIA_MAX_RETRIES from config/settings.py. -/
def SNPEDIA_MAX_RETRIES : Nat := 2

/-- The per-rsid knowledge record (extract, categories, url, source). -/
structure KRecord where
  extract : String
  categories : List String
  url : String
  source : String
deriving DecidableEq, Repr

/-- Outcome of one HTTP GET: 200 with a body, 404, 403, another status,
or a timeout/transport error. -/
inductive HResp where
  | ok (html : String)
  | notFound
  | forbidden
  | status (code : Nat)
  | transport
deriving DecidableEq, Repr

/-- The cache is keyed by the upper-cased rsid (get_cache_file writes
`rsid.upper()`.json). -/
def cache_key (rsid : String) : String := pyUpper rsid

/-- The empty FAILED record built when every fetch path comes back
empty-handed. -/
def empty_result (rsid : String) : KRecord :=
  { extract := "", categories := [], url := SNPEDIA_BASE_URL ++ rsid, source := "failed" }

/-- The retry loop of _fetch_from_html: up to the given fuel further
attempts; 200 parses and returns, 404 returns None immediately
(no further attempt), while 403, other statuses and transport errors all
continue to the next attempt after their logging/backoff.  The second
component counts HTTP requests issued. -/
def fetch_go (parseHtml : String → String → KRecord) (net : String → Nat → HResp)
    (rsid url : String) : Nat → Nat → Option KRecord × Nat
  | _, 0 => (none, 0)
  | attempt, fuel + 1 =>
      match net rsid attempt with
      | .ok html => (some (parseHtml html url), 1)
      | .notFound => (none, 1)
      | _ =>
          let out := fetch_go parseHtml net rsid url (attempt + 1) fuel
          (out.1, out.2 + 1)

/-- SNPediaExpander._fetch_from_html. -/
def fetch_from_html (parseHtml : String → String → KRecord) (net : String → Nat → HResp)
    (rsid : String) : Option KRecord × Nat :=
  fetch_go parseHtml net rsid (SNPEDIA_BASE_URL ++ rsid) 0 SNPEDIA_MAX_RETRIES

/-- SNPediaExpander.expand_rsid: serve a cached record when present (a
saved record is a non-empty four-key dict, hence truthy); otherwise the
API path returns None (placeholder in the source), the HTML path is tried,
and any record obtained — or the empty FAILED record — is saved to the
cache before returning.  Returns (record, cache after, requests made). -/
def expand_rsid (parseHtml : String → String → KRecord) (net : String → Nat → HResp)
    (cache : List (String × KRecord)) (rsid : String) :
    KRecord × List (String × KRecord) × Nat :=
  match dlookup (cache_key rsid) cache with
  | some c => (c, cache, 0)
  | none =>
      match fetch_from_html parseHtml net rsid with
      | (some rec, n) => (rec, dictInsert (cache_key rsid) rec cache, n)
      | (none, n) =>
          (empty_result rsid, dictInsert (cache_key rsid) (empty_result rsid) cache, n)

/-- State threaded through expand_batch: the returned result map, the
durable cache, the checkpoint set (insertion-ordered), and the number of
requests issued. -/
structure BatchState where
  results : List (String × KRecord)
  cache : List (String × KRecord)
  processed : List String
  requests : Nat

/-- process_one of expand_batch: expand the rsid against the current
cache, key the result map by the requested spelling, and add the rsid to
the processed set. -/
def expand_batch_step (parseHtml : String → String → KRecord)
    (net : String → Nat → HResp) (st : BatchState) (rsid : String) : BatchState :=
  let out := expand_rsid parseHtml net st.cache rsid
  { results := dictInsert rsid out.1 st.results,
    cache := out.2.1,
    processed := if st.processed.contains rsid then st.processed
                 else st.processed ++ [rsid],
    requests := st.requests + out.2.2 }

/-- The cache-only result assembly of the all-already-processed branch:
an rsid contributes an entry exactly when its cache file loads. -/
def cached_result_step (cache : List (String × KRecord))
    (res : List (String × KRecord)) (r : String) : List (String × KRecord) :=
  match dlookup (cache_key r) cache with
  | some c => dictInsert r c res
  | none => res

/-- SNPediaExpander.expand_batch: load the checkpoint, filter out the
already-processed rsids; when nothing is left, answer purely from cache;
otherwise process the remaining rsids (sequenced here; concurrency only
reorders work) and return the accumulated map. -/
def expand_batch (parseHtml : String → String → KRecord) (net : String → Nat → HResp)
    (checkpoint : List String) (cache : List (String × KRecord))
    (rsids : List String) : BatchState :=
  let to_process := rsids.filter (fun r => ! checkpoint.contains r)
  if to_process = [] then
    { results := rsids.foldl (cached_result_step cache) [],
      cache := cache, processed := checkpoint, requests := 0 }
  else
    to_process.foldl (expand_batch_step parseHtml net)
      { results := [], cache := cache, processed := checkpoint, requests := 0 }

/-- Claim C4: after a 404 on the first attempt, expand_rsid returns the
empty record with source failed having issued exactly one request, that
record is durably cached under the identifier's cache key, and a second
expand_rsid call for the same identifier returns the cached record with
zero requests — the 404 is never retried. -/
theorem c4_404_cached_failed_never_retried
    (parseHtml : String → String → KRecord) (net : String → Nat → HResp)
    (cache : List (String × KRecord)) (rsid : String)
    (hc : dlookup (cache_key rsid) cache = none)
    (hn : net rsid 0 = .notFound) :
    expand_rsid parseHtml net cache rsid =
      (empty_result rsid, dictInsert (cache_key rsid) (empty_result rsid) cache, 1) ∧
    (empty_result rsid).source = "failed" ∧
    (empty_result rsid).extract = "" ∧
    (empty_result rsid).categories = [] ∧
    dlookup (cache_key rsid) (dictInsert (cache_key rsid) (empty_result rsid) cache) =
      some (empty_result rsid) ∧
    expand_rsid parseHtml net (dictInsert (cache_key rsid) (empty_result rsid) cache) rsid =
      (empty_result rsid, dictInsert (cache_key rsid) (empty_result rsid) cache, 0) := by
  have hf : fetch_from_html parseHtml net rsid = (none, 1) := by
    unfold fetch_from_html
    show fetch_go parseHtml net rsid (SNPEDIA_BASE_URL ++ rsid) 0 2 = (none, 1)
    unfold fetch_go
    rw [hn]
  have h₁ : expand_rsid parseHtml net cache rsid =
      (empty_result rsid, dictInsert (cache_key rsid) (empty_result rsid) cache, 1) := by
    unfold expand_rsid
    rw [hc, hf]
  have h₂ : expand_rsid parseHtml net
      (dictInsert (cache_key rsid) (empty_result rsid) cache) rsid =
      (empty_result rsid, dictInsert (cache_key rsid) (empty_result rsid) cache, 0) := by
    unfold expand_rsid
    rw [dlookup_dictInsert_self]
  exact ⟨h₁, rfl, rfl, rfl, dlookup_dictInsert_self cache (cache_key rsid) (empty_result rsid), h₂⟩

/-- A trivial parser and an always-404 network for the concrete scenarios. -/
def ph0 : String → String → KRecord :=
  fun _ url => { extract := "", categories := [], url := url, source := "live" }

def net0 : String → Nat → HResp := fun _ _ => HResp.notFound

theorem c4_404_cached_failed_never_retried_witness :
    expand_rsid ph0 net0 [] "rs1" =
      (empty_result "rs1", dictInsert (cache_key "rs1") (empty_result "rs1") [], 1) ∧
    expand_rsid ph0 net0 (dictInsert (cache_key "rs1") (empty_result "rs1") []) "rs1" =
      (empty_result "rs1", dictInsert (cache_key "rs1") (empty_result "rs1") [], 0) := by
  have h := c4_404_cached_failed_never_retried ph0 net0 [] "rs1" rfl rfl
  exact ⟨h.1, h.2.2.2.2.2⟩

/-! Fold lemmas over expand_batch's work-list processing. -/

theorem expand_batch_step_results (parseHtml : String → String → KRecord)
    (net : String → Nat → HResp) (st : BatchState) (r : String) :
    (expand_batch_step parseHtml net st r).results =
      dictInsert r (expand_rsid parseHtml net st.cache r).1 st.results := rfl

theorem foldl_step_preserves_key (parseHtml : String → String → KRecord)
    (net : String → Nat → HResp) (l : List String) :
    ∀ (st : BatchState) (k : String), (dlookup k st.results).isSome →
      (dlookup k ((l.foldl (expand_batch_step parseHtml net) st)).results).isSome := by
  induction l with
  | nil => intro st k h; exact h
  | cons a t ih =>
      intro st k h
      rw [List.foldl_cons]
      exact ih _ k (by
        rw [expand_batch_step_results]
        exact dlookup_isSome_dictInsert _ _ _ _ h)

theorem foldl_step_inserts_members (parseHtml : String → String → KRecord)
    (net : String → Nat → HResp) (l : List String) :
    ∀ (st : BatchState) (r : String), r ∈ l →
      (dlookup r ((l.foldl (expand_batch_step parseHtml net) st)).results).isSome := by
  induction l with
  | nil => intro st r h; exact absurd h (List.not_mem_nil r)
  | cons a t ih =>
      intro st r h
      rw [List.foldl_cons]
      rcases List.mem_cons.mp h with he | ht
      · subst he
        exact foldl_step_preserves_key parseHtml net t _ r (by
          rw [expand_batch_step_results]
          simp [dlookup_dictInsert_self])
      · exact ih _ r ht

theorem foldl_step_no_new_keys (parseHtml : String → String → KRecord)
    (net : String → Nat → HResp) (l : List String) :
    ∀ (st : BatchState) (k : String), k ∉ l →
      dlookup k ((l.foldl (expand_batch_step parseHtml net) st)).results =
        dlookup k st.results := by
  induction l with
  | nil => intro st k _; rfl
  | cons a t ih =>
      intro st k h
      rw [List.foldl_cons]
      have hka : k ≠ a := fun he => h (he ▸ List.mem_cons_self a t)
      have hkt : k ∉ t := fun ht => h (List.mem_cons_of_mem a ht)
      rw [ih _ k hkt, expand_batch_step_results, dlookup_dictInsert_ne _ _ _ _ hka]

theorem foldl_cached_result_from_cache (cache : List (String × KRecord)) (l : List String) :
    ∀ (res : List (String × KRecord)) (k : String) (v : KRecord),
      dlookup k (l.foldl (cached_result_step cache) res) = some v →
      dlookup k res = some v ∨ dlookup (cache_key k) cache = some v := by
  induction l with
  | nil => intro res k v h; exact Or.inl h
  | cons a t ih =>
      intro res k v h
      rw [List.foldl_cons] at h
      rcases ih _ k v h with h₁ | h₂
      · unfold cached_result_step at h₁
        by_cases hka : k = a
        · subst hka
          cases hc : dlookup (cache_key k) cache with
          | none => rw [hc] at h₁; exact Or.inl h₁
          | some c =>
              rw [hc] at h₁
              rw [dlookup_dictInsert_self] at h₁
              exact Or.inr h₁
        · cases hc : dlookup (cache_key a) cache with
          | none => rw [hc] at h₁; exact Or.inl h₁
          | some c =>
              rw [hc] at h₁
              rw [dlookup_dictInsert_ne _ _ _ _ hka] at h₁
              exact Or.inl h₁
      · exact Or.inr h₂

/-- The counterexample of claim C2: the single requested identifier "rs1"
is already recorded in the checkpoint and has no durable cache entry, and
expand_batch returns a map with no entry for it at all. -/
theorem c2_checkpointed_rsid_omitted :
    "rs1" ∈ ["rs1"] ∧
    (expand_batch ph0 net0 ["rs1"] [] ["rs1"]).results = [] ∧
    dlookup "rs1" (expand_batch ph0 net0 ["rs1"] [] ["rs1"]).results = none := by
  refine ⟨List.mem_singleton.mpr rfl, rfl, rfl⟩

/-- Claim C2 as amended: the result map of expand_batch has an entry for
every requested identifier that is not recorded in the checkpoint; when
any such identifier exists, every checkpointed identifier is omitted from
the map; and when all requested identifiers are checkpointed, the map
serves only identifiers whose durable cache entry exists (the rest are
omitted). -/
theorem c2_result_map_entries (parseHtml : String → String → KRecord)
    (net : String → Nat → HResp) (checkpoint : List String)
    (cache : List (String × KRecord)) (rsids : List String) :
    (∀ r ∈ rsids, checkpoint.contains r = false →
      (dlookup r (expand_batch parseHtml net checkpoint cache rsids).results).isSome) ∧
    (rsids.filter (fun r => ! checkpoint.contains r) ≠ [] →
      ∀ r, checkpoint.contains r = true →
        dlookup r (expand_batch parseHtml net checkpoint cache rsids).results = none) ∧
    (rsids.filter (fun r => ! checkpoint.contains r) = [] →
      ∀ r v, dlookup r (expand_batch parseHtml net checkpoint cache rsids).results = some v →
        dlookup (cache_key r) cache = some v) := by
  by_cases hfil : rsids.filter (fun r => ! checkpoint.contains r) = []
  · refine ⟨?_, fun hne => absurd hfil hne, ?_⟩
    · intro r hr hcp
      have : r ∈ rsids.filter (fun r => ! checkpoint.contains r) :=
        List.mem_filter.mpr ⟨hr, by rw [hcp]; rfl⟩
      rw [hfil] at this
      exact absurd this (List.not_mem_nil r)
    · intro _ r v h
      simp only [expand_batch, hfil, if_pos] at h
      rcases foldl_cached_result_from_cache cache rsids [] r v h with h₁ | h₂
      · exact absurd h₁ (by simp [dlookup])
      · exact h₂
  · refine ⟨?_, ?_, fun he => absurd he hfil⟩
    · intro r hr hcp
      have hmem : r ∈ rsids.filter (fun r => ! checkpoint.contains r) :=
        List.mem_filter.mpr ⟨hr, by rw [hcp]; rfl⟩
      simp only [expand_batch, if_neg hfil]
      exact foldl_step_inserts_members parseHtml net _ _ r hmem
    · intro _ r hcp
      have hnm : r ∉ rsids.filter (fun r => ! checkpoint.contains r) := by
        intro hm
        have := (List.mem_filter.mp hm).2
        rw [hcp] at this
        simp at this
      simp only [expand_batch, if_neg hfil]
      rw [foldl_step_no_new_keys parseHtml net _ _ r hnm]
      rfl

theorem c2_result_map_entries_witness :
    (dlookup "rs2" (expand_batch ph0 net0 ["rs1"] [] ["rs1", "rs2"]).results).isSome ∧
    dlookup "rs1" (expand_batch ph0 net0 ["rs1"] [] ["rs1", "rs2"]).results = none := by
  have h := c2_result_map_entries ph0 net0 ["rs1"] [] ["rs1", "rs2"]
  exact ⟨h.1 "rs2" (by simp) rfl, h.2.1 (by decide) "rs1" rfl⟩

/-! ## PersistenceManager (layer8_persistence/persistence.py)

JSON documents are modelled with insertion-ordered objects; numbers carry
their serialized decimal literal (their numeric value plays no role in the
claims). -/

inductive JValue where
  | jnull
  | jbool (b : Bool)
  | jnum (lit : String)
  | jstr (s : String)
  | jarr (xs : List JValue)
  | jobj (kvs : List (String × JValue))

/-- Python sorted() over dict items: a stable sort; dict keys are unique,
so the tuple comparison of sorted(data.items()) orders purely by key. -/
def sortPairsByKey (l : List (String × JValue)) : List (String × JValue) :=
  l.insertionSort (fun a b => a.1 ≤ b.1)

/-! PersistenceManager.ensure_deterministic_output: recursively rebuild
every dict with its items sorted by key and recurse into lists.  The
source sorts the items first and then maps the recursion in sorted order;
as the stable sort compares only the (unique) keys, which the value map
preserves, recursing first and sorting after yields the same list. -/
mutual
def ensure_deterministic_output : JValue → JValue
  | .jnull => .jnull
  | .jbool b => .jbool b
  | .jnum n => .jnum n
  | .jstr s => .jstr s
  | .jarr xs => .jarr (edoList xs)
  | .jobj kvs => .jobj (sortPairsByKey (edoPairs kvs))

def edoList : List JValue → List JValue
  | [] => []
  | x :: xs => ensure_deterministic_output x :: edoList xs

def edoPairs : List (String × JValue) → List (String × JValue)
  | [] => []
  | (k, v) :: kvs => (k, ensure_deterministic_output v) :: edoPairs kvs
end

def spacesN (n : Nat) : String := String.mk (List.replicate n ' ')

/-- The JSON string escapes for the characters that occur in these
documents (ensure_ascii=False keeps everything else verbatim). -/
def escapeChar (c : Char) : List Char :=
  if c == '\\' then ['\\', '\\']
  else if c == '"' then ['\\', '"']
  else if c == '\n' then ['\\', 'n']
  else if c == '\t' then ['\\', 't']
  else if c == '\r' then ['\\', 'r']
  else [c]

def jsonEscape (s : String) : String :=
  String.mk (s.data.foldr (fun c acc => escapeChar c ++ acc) [])

def quoteStr (s : String) : String := "\"" ++ jsonEscape s ++ "\""

/-! CPython json.dump(data, f, indent=2, ensure_ascii=False): dict items
are written in the dict's insertion order (sort_keys is not passed), with
two-space indentation; empty containers print inline. -/
mutual
def jdump (ind : Nat) : JValue → String
  | .jnull => "null"
  | .jbool b => if b then "true" else "false"
  | .jnum n => n
  | .jstr s => quoteStr s
  | .jarr [] => "[]"
  | .jarr (x :: xs) =>
      "[\n" ++ jdumpItems (ind + 2) (x :: xs) ++ "\n" ++ spacesN ind ++ "]"
  | .jobj [] => "\x7b\x7d"
  | .jobj (kv :: kvs) =>
      "\x7b\n" ++ jdumpPairs (ind + 2) (kv :: kvs) ++ "\n" ++ spacesN ind ++ "\x7d"

def jdumpItems (ind : Nat) : List JValue → String
  | [] => ""
  | [x] => spacesN ind ++ jdump ind x
  | x :: y :: rest => spacesN ind ++ jdump ind x ++ ",\n" ++ jdumpItems ind (y :: rest)

def jdumpPairs (ind : Nat) : List (String × JValue) → String
  | [] => ""
  | [(k, v)] => spacesN ind ++ quoteStr k ++ ": " ++ jdump ind v
  | (k, v) :: p :: rest =>
      spacesN ind ++ quoteStr k ++ ": " ++ jdump ind v ++ ",\n" ++ jdumpPairs ind (p :: rest)
end

def json_dump (v : JValue) : String := jdump 0 v

/-- The object key sequence a serialization of the top-level dict emits:
json.dump iterates the dict in insertion order. -/
def topKeys : JValue → List String
  | .jobj kvs => kvs.map Prod.fst
  | _ => []

/-- The two files save_json_atomic touches: the destination and its .tmp
sibling. -/
structure FSState where
  dest : Option String
  tmp : Option String
deriving DecidableEq, Repr

/-- save_json_atomic, success path: json.dump the payload into the .tmp
sibling, then atomically replace the destination, leaving no temp file;
the optional timestamped backup only copies the old destination aside.
Returns True. -/
def save_json_atomic (_fs : FSState) (payload : JValue) : FSState × Bool :=
  ({ dest := some (json_dump payload), tmp := none }, true)

/-- The counterexample payload of claim C9: a two-key dict inserted in the
order b then a. -/
def c9_payload : JValue := .jobj [("b", .jnull), ("a", .jnull)]

/-- Counterexample to claim C9: save_json_atomic serializes exactly
json_dump of the payload into the renamed temp file, and on the payload
with insertion order b, a the emitted top-level key sequence is
["b", "a"], which is not sorted — keys are written in insertion order, not
sorted order (json.dump is called without sort_keys). -/
theorem c9_unsorted_keys_counterexample :
    (save_json_atomic ⟨none, none⟩ c9_payload).1.dest = some (json_dump c9_payload) ∧
    topKeys c9_payload = ["b", "a"] ∧
    json_dump c9_payload = "\x7b\n  \"b\": null,\n  \"a\": null\n\x7d" ∧
    ¬ List.Sorted (· ≤ ·) (topKeys c9_payload) := by
  refine ⟨rfl, rfl, by rfl, ?_⟩
  intro h
  have hba : ("b" : String) ≤ "a" :=
    List.rel_of_sorted_cons h "a" (List.mem_singleton.mpr rfl)
  rw [String.le_iff_toList_le] at hba
  exact absurd hba (by decide)

/-- Claim C9 as amended: save_json_atomic serializes the payload with
keys in the dict's insertion order (stable, but not sorted) into the temp
file that is atomically renamed over the destination, leaving no temp
artifact; sorted key order is obtained exactly by pre-processing the
payload with ensure_deterministic_output, whose top-level key sequence is
always sorted. -/
theorem c9_amended_insertion_order_sorted_via_edo (payload : JValue) (fs : FSState) :
    (save_json_atomic fs payload).1.dest = some (json_dump payload) ∧
    (save_json_atomic fs payload).1.tmp = none ∧
    (save_json_atomic fs payload).2 = true ∧
    List.Sorted (· ≤ ·) (topKeys (ensure_deterministic_output payload)) := by
  refine ⟨rfl, rfl, rfl, ?_⟩
  cases payload with
  | jobj kvs =>
      have heq : ensure_deterministic_output (.jobj kvs) =
          .jobj (sortPairsByKey (edoPairs kvs)) := by
        rw [ensure_deterministic_output]
      rw [heq]
      show List.Pairwise (· ≤ ·) ((sortPairsByKey (edoPairs kvs)).map Prod.fst)
      rw [List.pairwise_map]
      haveI ht : IsTotal (String × JValue) (fun a b => a.1 ≤ b.1) :=
        ⟨fun a b => le_total a.1 b.1⟩
      haveI htr : IsTrans (String × JValue) (fun a b => a.1 ≤ b.1) :=
        ⟨fun a b c hab hbc => le_trans hab hbc⟩
      exact List.sorted_insertionSort _ _
  | jnull => simp [ensure_deterministic_output, topKeys]
  | jbool b => simp [ensure_deterministic_output, topKeys]
  | jnum n => simp [ensure_deterministic_output, topKeys]
  | jstr s => simp [ensure_deterministic_output, topKeys]
  | jarr xs => simp [ensure_deterministic_output, topKeys]
